import Mathlib

/-!
Verification development for the petool backend relay.

Shallow embedding of the metering/relay core (`backend/routers/proxy.py`),
the settlement reconciler (`backend/routers/payment.py`) and the welcome
grant (`backend/routers/auth.py`).

Modelling conventions:
* JSON values carried by requests and upstream SSE chunks are the inductive
  `Json` below (numbers restricted to integers; no claim exercises
  fractional JSON numbers).
* Python `float` cost multipliers are modelled exactly: every literal in
  `TOKEN_COST_MULTIPLIER` is a multiple of 0.1, stored as an integer
  number of tenths, and `int(total * multiplier)` becomes the exact
  floor `(total * tenths) / 10` (truncation toward zero coincides with
  flooring on these non-negative values).  All claim inputs are chosen
  so that the exact decimal value and the IEEE-754 double value of the
  products agree.  Monetary plan amounts are likewise stored in cents.
* `datetime` values are modelled as integers (seconds); `timedelta(days=d)`
  is `d * 86400`.  The several `datetime.utcnow()` calls inside one
  operation are modelled as a single instant `now`.
* The external collaborators `tiktoken` (the `cl100k_base` encoder) and
  `json.loads` are parameters of the embedding: an optional encoding
  function (absent = tokenizer failure, exercising the fallback branch)
  and a function `String → Option Json` (none = `json.loads` raised).
* Fallible Python code (dynamic-type errors such as `AttributeError` /
  `TypeError` on malformed payloads) is modelled with `Except String`;
  the exact Python error message text is abstracted to a fixed tag.
-/

namespace PeTool

/-- Values produced by `json.loads` / carried in request bodies. -/
inductive Json where
  | null
  | bool (b : Bool)
  | num (n : Int)
  | str (s : String)
  | arr (elems : List Json)
  | obj (fields : List (String × Json))

/-- Dictionary lookup, `d[k]` / `d.get(k)` on a JSON object's field list. -/
def jsonGet (fields : List (String × Json)) (k : String) : Option Json :=
  (fields.find? (fun p => p.1 == k)).map Prod.snd

/-- Python truthiness of a JSON-derived value. -/
def pyTruthy : Json → Bool
  | .null => false
  | .bool b => b
  | .num n => n != 0
  | .str s => s != ""
  | .arr xs => !xs.isEmpty
  | .obj fs => !fs.isEmpty

mutual
/-- Python `repr` of a JSON-derived value (quote style approximated). -/
def pyRepr : Json → String
  | .null => "None"
  | .bool true => "True"
  | .bool false => "False"
  | .num n => toString n
  | .str s => "\x27" ++ s ++ "\x27"
  | .arr xs => "[" ++ pyReprSeq xs ++ "]"
  | .obj fs => "\x7b" ++ pyReprFields fs ++ "\x7d"

/-- Comma-separated `repr` of a list of values. -/
def pyReprSeq : List Json → String
  | [] => ""
  | [x] => pyRepr x
  | x :: y :: rest => pyRepr x ++ ", " ++ pyReprSeq (y :: rest)

/-- Comma-separated `repr` of a dict's key/value pairs. -/
def pyReprFields : List (String × Json) → String
  | [] => ""
  | [(k, v)] => "\x27" ++ k ++ "\x27: " ++ pyRepr v
  | (k, v) :: q :: rest =>
      "\x27" ++ k ++ "\x27: " ++ pyRepr v ++ ", " ++ pyReprFields (q :: rest)
end

/-- Python `str()` of a JSON-derived value. -/
def pyStr : Json → String
  | .str s => s
  | v => pyRepr v

-- ─── Python string methods (list-based models, kernel-reducible) ───

/-- Whitespace characters handled by the model of `str.strip()` (the
ones that occur in SSE framing; Python strips a few more exotic ones). -/
def pyIsSpace (c : Char) : Bool :=
  c == ' ' || c == '\t' || c == '\n' || c == '\r'

/-- Model of Python `str.strip()`. -/
def pyStrip (s : String) : String :=
  ⟨((s.data.dropWhile pyIsSpace).reverse.dropWhile pyIsSpace).reverse⟩

/-- ASCII lower-casing of one character (model identifiers are ASCII). -/
def pyLowerChar (c : Char) : Char :=
  if 65 ≤ c.toNat ∧ c.toNat ≤ 90 then Char.ofNat (c.toNat + 32) else c

/-- Model of Python `str.lower()`. -/
def pyLower (s : String) : String :=
  ⟨s.data.map pyLowerChar⟩

/-- Model of Python `str.startswith(pre)`. -/
def pyStartswith (s pre : String) : Bool :=
  s.data.take pre.data.length == pre.data

-- ─── Tokenizer Estimator (`_count_tokens_approx`) ───

/-- Embedding of `_count_tokens_approx`.  `enc` is the external
`tiktoken` `cl100k_base` encoder composed with `len` when the library
works (`some f`), and `none` when `tiktoken.get_encoding` or `encode`
raises, which exercises the `max(1, len(text) // 4)` fallback. -/
def count_tokens_approx (enc : Option (String → Nat)) (text : String) : Nat :=
  match enc with
  | some f => f text
  | none => max 1 (text.length / 4)

-- ─── Cost multipliers (`TOKEN_COST_MULTIPLIER`, `_get_cost_multiplier`) ───

/-- Embedding of the `TOKEN_COST_MULTIPLIER` table.  The float
multipliers (2.0, 1.0, 1.5, 1.2, 0.8, ...) are stored as exact tenths. -/
def TOKEN_COST_MULTIPLIER : List (String × Nat) :=
  [ ("gpt-4o", 20),
    ("gpt-4o-mini", 10),
    ("glm-5", 10),
    ("glm-4-plus", 15),
    ("doubao-pro", 12),
    ("doubao-lite", 8),
    ("doubao-seed-1-6-thinking", 15),
    ("minimax-m2.5", 10),
    ("minimax-text-01", 10),
    ("abab7-chat-preview", 15),
    ("abab6.5s-chat", 10),
    ("abab5.5-chat", 8) ]

/-- Embedding of `_get_cost_multiplier`: case-insensitive (lower-cased,
stripped) lookup with default `1.0` (= 10 tenths). -/
def get_cost_multiplier (model : String) : Nat :=
  ((TOKEN_COST_MULTIPLIER.find? (fun p => p.1 == pyLower (pyStrip model))).map
    Prod.snd).getD 10

-- ─── Balance Ledger (`_check_balance`, `_deduct_tokens`) ───

/-- Account document as created by registration and mutated by the ledger
operations (`users` collection). -/
structure Account where
  token_balance : Int
  token_total_used : Int
  membership_level : String
  membership_expire_at : Option Int
  created_at : Int
  updated_at : Int
deriving Repr, DecidableEq

/-- Usage record document (`usage_records` collection). -/
structure UsageRecord where
  user_id : String
  model : String
  task_type : String
  prompt_tokens : Nat
  completion_tokens : Nat
  total_tokens : Nat
  cost_tokens : Nat
  created_at : Int
deriving Repr, DecidableEq

/-- Account state paired with the append-only usage record log. -/
structure Ledger where
  account : Account
  usage_records : List UsageRecord
deriving Repr, DecidableEq

/-- Embedding of `_check_balance`: `true` means the request proceeds,
`false` means HTTP 402 `Insufficient token balance` is raised.  The code
raises when the user document is missing or
`token_balance < max(1, estimated_cost)`. -/
def check_balance (user : Option Account) (estimated_cost : Nat) : Bool :=
  match user with
  | none => false
  | some u => if u.token_balance < max 1 (estimated_cost : Int) then false else true

/-- Charged cost of a debit:
`max(1, int(total * _get_cost_multiplier(model)))`, computed exactly as
`max 1 ((total * tenths) / 10)` since the multiplier is `tenths / 10`
and `int()` truncates the non-negative product. -/
def deduct_cost (model : String) (total : Nat) : Nat :=
  max 1 ((total * get_cost_multiplier model) / 10)

/-- Embedding of `_deduct_tokens`: appends one usage record, decrements
`token_balance` by the cost and increments `token_total_used` by the cost
(the Mongo `$inc`/`$set` update). -/
def deduct_tokens (user_id model : String) (prompt_tokens completion_tokens : Nat)
    (task_type : String) (now : Int) (st : Ledger) : Ledger :=
  let total := prompt_tokens + completion_tokens
  let cost := deduct_cost model total
  { account :=
      { st.account with
        token_balance := st.account.token_balance - (cost : Int)
        token_total_used := st.account.token_total_used + (cost : Int)
        updated_at := now }
    usage_records := st.usage_records ++
      [{ user_id := user_id, model := model, task_type := task_type
         prompt_tokens := prompt_tokens, completion_tokens := completion_tokens
         total_tokens := total, cost_tokens := cost, created_at := now }] }

-- ─── Welcome grant (`auth.register`) ───

/-- Token grant for a freshly registered user (`NEW_USER_WELCOME_TOKENS`). -/
def NEW_USER_WELCOME_TOKENS : Int := 50000

/-- Account document inserted by `auth.register`. -/
def register_account (now : Int) : Account :=
  { token_balance := NEW_USER_WELCOME_TOKENS
    token_total_used := 0
    membership_level := "free"
    membership_expire_at := none
    created_at := now
    updated_at := now }

-- ─── Streaming relay (`event_generator` in `chat_completions`) ───

/-- Textual content contributed by one element of a chunk's `choices`
list: `choice.get("delta")` when `choice` is a dict, then
`delta.get("content")` when the delta is a dict, kept only when the
content is a string. -/
def deltaContent (choice : Json) : String :=
  match choice with
  | .obj fields =>
    match jsonGet fields "delta" with
    | some (.obj dfields) =>
      match jsonGet dfields "content" with
      | some (.str s) => s
      | _ => ""
    | _ => ""
  | _ => ""

/-- Python iteration over the value of `payload.get("choices", [])`:
lists yield their elements, strings their characters, dicts their keys;
other values raise `TypeError`. -/
def pyIterate : Json → Option (List Json)
  | .arr xs => some xs
  | .str s => some (s.data.map (fun c => Json.str (String.singleton c)))
  | .obj fs => some (fs.map (fun p => Json.str p.1))
  | _ => none

/-- Metering of a single upstream SSE line (the body of the `async for`
loop after the `yield`): the `.ok` value is the text appended to
`completion_text` by this line, `.error` models a Python exception
escaping to the outer `except` handler.  A line that is not a `data:`
line, carries no payload, carries the `[DONE]` sentinel, or fails
`json.loads` (`jsonLoads` returning `none`) contributes nothing and
raises nothing. -/
def meterLine (jsonLoads : String → Option Json) (line : String) :
    Except String String :=
  if !pyStartswith line "data:" then .ok ""
  else
    let data_raw := pyStrip (line.drop 5)
    if data_raw == "" || data_raw == "[DONE]" then .ok ""
    else
      match jsonLoads data_raw with
      | none => .ok ""
      | some payload =>
        match payload with
        | .obj fields =>
          match pyIterate ((jsonGet fields "choices").getD (.arr [])) with
          | none => .error "TypeError"
          | some choices => .ok (String.join (choices.map deltaContent))
        | _ => .error "AttributeError"

/-- Text contributed by one line, `""` when the line raises (used to
state accumulated text of fully-processed prefixes). -/
def meter_piece (jsonLoads : String → Option Json) (line : String) : String :=
  match meterLine jsonLoads line with
  | .ok s => s
  | .error _ => ""

/-- Relay loop over the upstream lines: returns the lines yielded to the
client (each as `f"{line}\n"`), the final `completion_text` accumulator,
and the metering exception if one was raised.  A raising line is still
yielded first (the `yield` precedes the parsing); lines after it are
never pulled from the upstream. -/
def relayLines (jsonLoads : String → Option Json) :
    List String → String → List String × String × Option String
  | [], acc => ([], acc, none)
  | line :: rest, acc =>
    match meterLine jsonLoads line with
    | .error e => ([line ++ "\n"], acc, some e)
    | .ok piece =>
      let r := relayLines jsonLoads rest (acc ++ piece)
      ((line ++ "\n") :: r.1, r.2)

/-- Synthetic in-band error event:
`f"data: {json.dumps({'error': {'message': str(e), 'type': 'upstream_error'}})}\n\n"`
(JSON string escaping of the message is not modelled; all messages used
are plain). -/
def errorEvent (msg : String) : String :=
  "data: \x7b\"error\": \x7b\"message\": \"" ++ msg ++
    "\", \"type\": \"upstream_error\"\x7d\x7d\n\n"

/-- Behaviour of one upstream streaming call: the SSE lines it produces,
then either a clean end of stream (`failure = none`) or an exception
raised while awaiting the next line (`failure = some msg`; `lines = []`
with a failure models the call raising before any output). -/
structure Upstream where
  lines : List String
  failure : Option String
deriving Repr, DecidableEq

/-- Argument triple of a spawned `_deduct_tokens` task (task type and
timestamp are supplied at execution time). -/
structure DebitCall where
  model : String
  prompt_tokens : Nat
  completion_tokens : Nat
deriving Repr, DecidableEq

/-- Embedding of `event_generator`: the full sequence of lines sent to
the client and the debit fired by the `finally` block.  A metering
exception or an upstream failure is caught by the `except` handler,
which appends the synthetic error event and returns; the `finally`
block then estimates the accumulated `completion_text` and spawns
`_deduct_tokens` in every case. -/
def event_generator (jsonLoads : String → Option Json) (tok : String → Nat)
    (model : String) (prompt_tokens : Nat) (up : Upstream) :
    List String × DebitCall :=
  let r := relayLines jsonLoads up.lines ""
  match r.2.2 with
  | some e => (r.1 ++ [errorEvent e],
      { model := model, prompt_tokens := prompt_tokens
        completion_tokens := tok r.2.1 })
  | none =>
    match up.failure with
    | some msg => (r.1 ++ [errorEvent msg],
        { model := model, prompt_tokens := prompt_tokens
          completion_tokens := tok r.2.1 })
    | none => (r.1,
        { model := model, prompt_tokens := prompt_tokens
          completion_tokens := tok r.2.1 })

/-- Embedding of a client disconnect during streaming: the client reads
`k ≥ 1` events and closes the connection.  The generator is then
suspended inside its `k`-th `yield`, so the first `k - 1` lines have
been metered; `GeneratorExit` unwinds through the handlers and the
`finally` block still fires the debit over the text accumulated so far.
When `k` covers the whole output the run is the normal complete run. -/
def event_generator_disconnect (jsonLoads : String → Option Json)
    (tok : String → Nat) (model : String) (prompt_tokens : Nat)
    (up : Upstream) (k : Nat) : List String × DebitCall :=
  let full := event_generator jsonLoads tok model prompt_tokens up
  if 1 ≤ k ∧ k < full.1.length then
    (full.1.take k,
      { model := model, prompt_tokens := prompt_tokens
        completion_tokens :=
          tok (relayLines jsonLoads (up.lines.take (k - 1)) "").2.1 })
  else full

-- ─── Prompt text extraction (`_extract_text_from_messages`) ───

/-- Collects `block.get("text", "")` for each dict block of a structured
content list whose `type` is `"text"`; a non-string `text` value makes
the final `"\n".join(parts)` raise `TypeError`. -/
def blocks_texts : List Json → Except String (List String)
  | [] => .ok []
  | b :: rest =>
    match b with
    | .obj fields =>
      let keep :=
        match jsonGet fields "type" with
        | some (.str t) => t == "text"
        | _ => false
      if keep then
        match (jsonGet fields "text").getD (.str "") with
        | .str s =>
          match blocks_texts rest with
          | .ok parts => .ok (s :: parts)
          | .error e => .error e
        | _ => .error "TypeError"
      else blocks_texts rest
    | _ => blocks_texts rest

/-- Parts contributed by one message: `content = m.get("content") or ""`;
a list content is scanned for text blocks, any other content contributes
`str(content)`.  A non-dict message raises `AttributeError`. -/
def message_parts (m : Json) : Except String (List String) :=
  match m with
  | .obj fields =>
    let raw := (jsonGet fields "content").getD .null
    let content := if pyTruthy raw then raw else Json.str ""
    match content with
    | .arr blocks => blocks_texts blocks
    | c => .ok [pyStr c]
  | _ => .error "AttributeError"

/-- Parts contributed by a message list, in order. -/
def messages_parts : List Json → Except String (List String)
  | [] => .ok []
  | m :: rest =>
    match message_parts m with
    | .error e => .error e
    | .ok ps =>
      match messages_parts rest with
      | .error e => .error e
      | .ok qs => .ok (ps ++ qs)

/-- Embedding of `_extract_text_from_messages`:
`"\n".join(parts)` over all collected parts. -/
def extract_text_from_messages (messages : List Json) : Except String String :=
  match messages_parts messages with
  | .error e => .error e
  | .ok parts => .ok (String.intercalate "\n" parts)

-- ─── Request pipeline (`chat_completions`) ───

/-- Parsed request fields used by the metering core (`body.get("model",
"glm-5")`, `body.get("messages", [])`, `body.get("stream", False)`).
The passthrough parameter bag is forwarded verbatim to the provider and
never inspected by the core, so it is not part of the embedding. -/
structure ChatReq where
  model : String
  messages : List Json
  stream : Bool

/-- One choice of a unary upstream response (`message.content`, which
may be null). -/
structure UnaryChoice where
  content : Option String
deriving Repr, DecidableEq

/-- Unary upstream response: `usage.completion_tokens` when a usage
object is reported, and the choices list. -/
structure UnaryResp where
  usage_completion_tokens : Option Nat
  choices : List UnaryChoice
deriving Repr, DecidableEq

/-- Behaviour of one unary upstream call: either
`client.chat.completions.create` raises, or it returns a response. -/
inductive UpstreamUnary where
  | failure (msg : String)
  | success (resp : UnaryResp)
deriving Repr, DecidableEq

/-- Client-side read behaviour of the streaming response. -/
inductive ClientRead where
  | all
  | disconnectAfter (k : Nat)
deriving Repr, DecidableEq

/-- Outcome of one `POST /v1/chat/completions` request. -/
inductive ChatOutcome where
  | badRequest (msg : String)
  | insufficientBalance
  | upstreamFailed (msg : String)
  | unary (resp : UnaryResp)
  | streamed (events : List String)
deriving Repr, DecidableEq

/-- Streaming branch under the given client behaviour. -/
def run_stream (jsonLoads : String → Option Json) (tok : String → Nat)
    (model : String) (prompt_tokens : Nat) (up : Upstream) :
    ClientRead → List String × DebitCall
  | .all => event_generator jsonLoads tok model prompt_tokens up
  | .disconnectAfter k =>
    event_generator_disconnect jsonLoads tok model prompt_tokens up k

/-- Completion-token count of the unary branch:
`usage.completion_tokens if usage else
_count_tokens_approx(response.choices[0].message.content or "" if
response.choices else "")`. -/
def unary_completion_tokens (enc : Option (String → Nat)) (resp : UnaryResp) :
    Nat :=
  match resp.usage_completion_tokens with
  | some u => u
  | none =>
    count_tokens_approx enc
      (match resp.choices.head? with
       | some ch => ch.content.getD ""
       | none => "")

/-- Embedding of `chat_completions`: parameterised by the external
tokenizer encoder, the external JSON library, the user document the
balance check reads, and the behaviour of the resolved upstream for
whichever branch runs.  The second component collects the
`_deduct_tokens` tasks spawned by the request (the claims count debits
through it). -/
def chat_completions (enc : Option (String → Nat))
    (jsonLoads : String → Option Json) (user : Option Account)
    (req : ChatReq) (streamUp : Upstream) (client : ClientRead)
    (unaryUp : UpstreamUnary) : ChatOutcome × List DebitCall :=
  match extract_text_from_messages req.messages with
  | .error e => (.badRequest e, [])
  | .ok text =>
    let prompt_tokens := count_tokens_approx enc text
    if check_balance user prompt_tokens then
      if req.stream then
        let r := run_stream jsonLoads (count_tokens_approx enc) req.model
          prompt_tokens streamUp client
        (.streamed r.1, [r.2])
      else
        match unaryUp with
        | .failure msg => (.upstreamFailed msg, [])
        | .success resp =>
          (.unary resp,
            [{ model := req.model, prompt_tokens := prompt_tokens
               completion_tokens := unary_completion_tokens enc resp }])
    else (.insufficientBalance, [])

/-- Execution of a spawned `_deduct_tokens` task (task type defaults to
`"对话"` at the call sites). -/
def run_debit (user_id : String) (d : DebitCall) (now : Int) (st : Ledger) :
    Ledger :=
  deduct_tokens user_id d.model d.prompt_tokens d.completion_tokens "对话" now st

-- ─── Settlement (`payment.py`: `PLANS`, order creation, `_fulfill_order`) ───

/-- Plan table entry (the float yuan amount stored exactly in cents). -/
structure Plan where
  title : String
  amount_cents : Int
  token_grant : Int
  days_grant : Int
deriving Repr, DecidableEq

/-- Embedding of the module-level `PLANS` table (29.0 / 299.0 / 9.9 /
39.9 yuan as cents). -/
def PLANS : List (String × Plan) :=
  [ ("monthly", { title := "专业版 - 月度订阅", amount_cents := 2900
                  token_grant := 0, days_grant := 30 }),
    ("yearly", { title := "专业版 - 年度订阅", amount_cents := 29900
                 token_grant := 0, days_grant := 365 }),
    ("pack-100w", { title := "100万 Token 加油包", amount_cents := 990
                    token_grant := 1000000, days_grant := 0 }),
    ("pack-500w", { title := "500万 Token 加油包", amount_cents := 3990
                    token_grant := 5000000, days_grant := 0 }) ]

/-- Order document (`orders` collection).  `transaction_id` and
`paid_at` are absent until fulfillment. -/
structure Order where
  user_id : String
  plan_id : String
  title : String
  amount_cents : Int
  token_grant : Int
  days_grant : Int
  payment_method : String
  out_trade_no : String
  status : String
  transaction_id : Option String
  paid_at : Option Int
  created_at : Int
deriving Repr, DecidableEq

/-- Pending order inserted by `wechat_create` / `alipay_create`: a
snapshot of the plan is copied into the order document. -/
def make_pending_order (user_id plan_id : String) (plan : Plan)
    (payment_method out_trade_no : String) (now : Int) : Order :=
  { user_id := user_id, plan_id := plan_id, title := plan.title
    amount_cents := plan.amount_cents, token_grant := plan.token_grant
    days_grant := plan.days_grant, payment_method := payment_method
    out_trade_no := out_trade_no, status := "pending"
    transaction_id := none, paid_at := none, created_at := now }

/-- Database state seen by the settlement reconciler. -/
structure PayDb where
  users : List (String × Account)
  orders : List Order
deriving Repr, DecidableEq

/-- Mongo `find_one({"out_trade_no": otn})`: first matching order. -/
def order_find : List Order → String → Option Order
  | [], _ => none
  | o :: rest, otn => if o.out_trade_no == otn then some o else order_find rest otn

/-- Mongo `find_one({"_id": uid})` on the users collection. -/
def user_find : List (String × Account) → String → Option Account
  | [], _ => none
  | p :: rest, uid => if p.1 == uid then some p.2 else user_find rest uid

/-- Mongo `update_one` on the users collection: replaces the first
document with the given id. -/
def set_user : List (String × Account) → String → Account →
    List (String × Account)
  | [], _, _ => []
  | p :: rest, uid, a =>
    if p.1 == uid then (p.1, a) :: rest else p :: set_user rest uid a

/-- Mongo `update_one({"out_trade_no": otn}, {"$set": ...})`: updates
the first matching order. -/
def mark_order_paid : List Order → String → String → Int → List Order
  | [], _, _, _ => []
  | o :: rest, otn, tid, now =>
    if o.out_trade_no == otn then
      { o with status := "paid", transaction_id := some tid
               paid_at := some now } :: rest
    else o :: mark_order_paid rest otn tid now

/-- Embedding of `timedelta(days=d)` in seconds. -/
def timedelta_days (d : Int) : Int := d * 86400

/-- Token grant read by `_fulfill_order`:
`PLANS.get(order["plan_id"], {}).get("token_grant", 0)` against the
given plan table. -/
def plan_token_grant (plans : List (String × Plan)) (plan_id : String) : Int :=
  (((plans.find? (fun p => p.1 == plan_id)).map Prod.snd).map
    Plan.token_grant).getD 0

/-- Day grant read by `_fulfill_order`:
`PLANS.get(order["plan_id"], {}).get("days_grant", 0)` against the
given plan table. -/
def plan_days_grant (plans : List (String × Plan)) (plan_id : String) : Int :=
  (((plans.find? (fun p => p.1 == plan_id)).map Prod.snd).map
    Plan.days_grant).getD 0

/-- Embedding of `_fulfill_order`, parameterised by the plan table it
reads (the module global `PLANS` at the call sites): looks up the order
by `out_trade_no`; a missing or already-paid order is a no-op; grant
amounts come from `PLANS.get(order["plan_id"], {})` — the current plan
table, not the snapshot stored in the order; a missing user document is
a no-op; otherwise the token grant is added when positive, a positive
day grant extends the membership expiry (stacking on a still-future
expiry) and sets the level to `"pro"`, and the order is marked paid. -/
def fulfill_order (plans : List (String × Plan))
    (out_trade_no transaction_id : String) (now : Int) (db : PayDb) : PayDb :=
  match order_find db.orders out_trade_no with
  | none => db
  | some order =>
    if order.status == "paid" then db
    else
      let token_grant := plan_token_grant plans order.plan_id
      let days_grant := plan_days_grant plans order.plan_id
      match user_find db.users order.user_id with
      | none => db
      | some user =>
        let user1 :=
          if 0 < token_grant then
            { user with token_balance := user.token_balance + token_grant
                        updated_at := now }
          else { user with updated_at := now }
        let user2 :=
          if 0 < days_grant then
            let new_expire :=
              match user.membership_expire_at with
              | some cur =>
                if now < cur then cur + timedelta_days days_grant
                else now + timedelta_days days_grant
              | none => now + timedelta_days days_grant
            { user1 with membership_expire_at := some new_expire
                         membership_level := "pro" }
          else user1
        { users := set_user db.users order.user_id user2
          orders := mark_order_paid db.orders out_trade_no transaction_id now }

-- ─── Helper definitions and lemmas for the proofs ───

/-- Holds when metering a line does not raise. -/
def meter_ok (jsonLoads : String → Option Json) (line : String) : Bool :=
  match meterLine jsonLoads line with
  | .ok _ => true
  | .error _ => false

/-- Concatenation of a list of text pieces in order. -/
def concat_pieces : List String → String
  | [] => ""
  | s :: rest => s ++ concat_pieces rest

/-- Cost formula as claim C4 words it: `max(1, round(total * multiplier))`
with round-half-up on the exact decimal value, i.e.
`round(x) = ⌊x + 1/2⌋ = (total * tenths + 5) / 10`.  (Python's
`round` half-to-even agrees on every input used below.) -/
def spec_round_cost (model : String) (total : Nat) : Nat :=
  max 1 ((total * get_cost_multiplier model + 5) / 10)

-- ─── Concrete fixtures used to evaluate the theorems ───

/-- Concrete stand-in for the external tokenizer encoder. -/
def tok_len : String → Nat := fun s => s.length

/-- Upstream SSE chunk carrying the delta content `"Hello"`. -/
def line1 : String :=
  "data: \x7b\"choices\": [\x7b\"delta\": \x7b\"content\": \"Hello\"\x7d\x7d]\x7d"

/-- Upstream SSE chunk carrying the delta content `" world"`. -/
def line2 : String :=
  "data: \x7b\"choices\": [\x7b\"delta\": \x7b\"content\": \" world\"\x7d\x7d]\x7d"

/-- Concrete `json.loads` behaviour on the payloads exercised by the
fixtures (any other input raises, i.e. returns `none`, exactly as
`json.loads` does on non-JSON text). -/
def jl1 : String → Option Json := fun s =>
  if s = "\x7b\"choices\": [\x7b\"delta\": \x7b\"content\": \"Hello\"\x7d\x7d]\x7d" then
    some (.obj [("choices",
      .arr [.obj [("delta", .obj [("content", .str "Hello")])]])])
  else if s = "\x7b\"choices\": [\x7b\"delta\": \x7b\"content\": \" world\"\x7d\x7d]\x7d" then
    some (.obj [("choices",
      .arr [.obj [("delta", .obj [("content", .str " world")])]])])
  else if s = "null" then some .null
  else none

/-- Message list of a simple one-turn request. -/
def chat_msgs : List Json :=
  [.obj [("role", .str "user"), ("content", .str "hi")]]

/-- Account with a 300-token balance. -/
def acct300 : Account :=
  { token_balance := 300, token_total_used := 0, membership_level := "free"
    membership_expire_at := none, created_at := 0, updated_at := 0 }

/-- Pending 100万-token-pack order of user `u1`. -/
def ord8 : Order :=
  make_pending_order "u1" "pack-100w"
    { title := "100万 Token 加油包", amount_cents := 990
      token_grant := 1000000, days_grant := 0 } "wechat" "OT8" 0

/-- Database with one fresh user and the pending pack order. -/
def db8 : PayDb := { users := [("u1", register_account 0)], orders := [ord8] }

/-- Plan table after a later price change: the 100万 pack now grants
2000000 tokens. -/
def PLANS2 : List (String × Plan) :=
  [ ("pack-100w", { title := "100万 Token 加油包", amount_cents := 990
                    token_grant := 2000000, days_grant := 0 }) ]

/-- Pending monthly-membership order of user `u1`. -/
def ord9 : Order :=
  make_pending_order "u1" "monthly"
    { title := "专业版 - 月度订阅", amount_cents := 2900
      token_grant := 0, days_grant := 30 } "wechat" "OT9" 0

/-- Database whose user already has a membership expiring 10 days in the
future (taking `now = 0`). -/
def db9 : PayDb :=
  { users := [("u1",
      { register_account 0 with membership_expire_at := some 864000 })]
    orders := [ord9] }

/-- Database holding the pending order but no user record at all. -/
def db10 : PayDb := { users := [], orders := [ord8] }

theorem relayLines_ok (jsonLoads : String → Option Json) (lines : List String)
    (h : ∀ l ∈ lines, meter_ok jsonLoads l = true) :
    ∀ acc, relayLines jsonLoads lines acc =
      (lines.map (fun l => l ++ "\n"),
       acc ++ concat_pieces (lines.map (meter_piece jsonLoads)), none) := by
  induction lines with
  | nil => intro acc; simp [relayLines, concat_pieces]
  | cons l rest ih =>
    intro acc
    have hl : meter_ok jsonLoads l = true := h l (by simp)
    have hrest : ∀ x ∈ rest, meter_ok jsonLoads x = true :=
      fun x hx => h x (by simp [hx])
    cases hm : meterLine jsonLoads l with
    | error e => simp [meter_ok, hm] at hl
    | ok s =>
      simp only [relayLines, hm, List.map_cons, concat_pieces, meter_piece]
      rw [ih hrest (acc ++ s), String.append_assoc]

theorem order_find_mark (otn tid : String) (now : Int) :
    ∀ (orders : List Order) (o : Order), order_find orders otn = some o →
      order_find (mark_order_paid orders otn tid now) otn =
        some { o with status := "paid", transaction_id := some tid
                      paid_at := some now } := by
  intro orders
  induction orders with
  | nil => intro o ho; simp [order_find] at ho
  | cons q rest ih =>
    intro o ho
    cases hq : (q.out_trade_no == otn) with
    | true =>
      rw [order_find, if_pos hq] at ho
      cases ho
      simp [mark_order_paid, hq, order_find]
    | false =>
      rw [order_find, if_neg (by simp [hq])] at ho
      simp only [mark_order_paid, hq, Bool.false_eq_true, if_false, order_find,
        if_neg (show ¬ (q.out_trade_no == otn) = true by simp [hq])]
      exact ih o ho

theorem user_find_set (uid : String) (a : Account) :
    ∀ (users : List (String × Account)) (u : Account),
      user_find users uid = some u →
      user_find (set_user users uid a) uid = some a := by
  intro users
  induction users with
  | nil => intro u hu; simp [user_find] at hu
  | cons p rest ih =>
    intro u hu
    cases hp : (p.1 == uid) with
    | true => simp [set_user, hp, user_find]
    | false =>
      rw [user_find, if_neg (by simp [hp])] at hu
      simp only [set_user, hp, Bool.false_eq_true, if_false, user_find,
        if_neg (show ¬ (p.1 == uid) = true by simp [hp])]
      exact ih u hu

theorem fulfill_order_marks (plans : List (String × Plan))
    (otn tid : String) (now : Int) (db : PayDb) (o : Order) (u : Account)
    (hfind : order_find db.orders otn = some o)
    (hpending : (o.status == "paid") = false)
    (huser : user_find db.users o.user_id = some u) :
    order_find (fulfill_order plans otn tid now db).orders otn
      = some { o with status := "paid", transaction_id := some tid
                      paid_at := some now } := by
  have horders : (fulfill_order plans otn tid now db).orders
      = mark_order_paid db.orders otn tid now := by
    simp [fulfill_order, hfind, hpending, huser]
  rw [horders]
  exact order_find_mark otn tid now db.orders o hfind

-- ─── Claim C4 ───

/-- C4, counterexample: for model `"glm-4-plus"` (multiplier 1.5) and a
single total token, the code charges `max(1, int(1 * 1.5)) = 1`, while
the claim's formula `max(1, round(1 * 1.5))` gives 2 (round half-up and
Python's round half-to-even both send 1.5 to 2).  The charged cost is
truncated, not rounded. -/
theorem c4_counterexample :
    deduct_cost "glm-4-plus" 1 = 1 ∧ spec_round_cost "glm-4-plus" 1 = 2 ∧
    deduct_cost "glm-4-plus" 1 ≠ spec_round_cost "glm-4-plus" 1 := by
  decide

/-- C4, amended: the charged cost is `max(1, int((p + c) * multiplier))`
— truncation toward zero of the product, not rounding; the multiplier is
looked up case-insensitively (stripped, lower-cased) with default 1.0;
the debit appends exactly one UsageRecord carrying that cost, decrements
`token_balance` by the cost and increments `token_total_used` by the
cost; the cost is at least 1, and a zero-token debit costs exactly 1. -/
theorem c4_amended_theorem (user_id model task_type : String) (p c : Nat)
    (now : Int) (st : Ledger) :
    (deduct_tokens user_id model p c task_type now st).usage_records =
      st.usage_records ++
        [{ user_id := user_id, model := model, task_type := task_type
           prompt_tokens := p, completion_tokens := c, total_tokens := p + c
           cost_tokens := max 1 ((p + c) * get_cost_multiplier model / 10)
           created_at := now }]
    ∧ (deduct_tokens user_id model p c task_type now st).account.token_balance
        = st.account.token_balance - (deduct_cost model (p + c) : Int)
    ∧ (deduct_tokens user_id model p c task_type now st).account.token_total_used
        = st.account.token_total_used + (deduct_cost model (p + c) : Int)
    ∧ 1 ≤ deduct_cost model (p + c)
    ∧ deduct_cost model 0 = 1
    ∧ get_cost_multiplier "  GPT-4O " = 20
    ∧ get_cost_multiplier "totally-unknown-model" = 10 :=
  ⟨rfl, rfl, rfl, le_max_left 1 _, by simp [deduct_cost], by decide, by decide⟩

-- ─── Claim C6 ───

/-- C6, counterexample: `acct300` (balance 300) passes the pre-flight
check for a 100-token prompt estimate, the unary upstream reports 400
completion tokens, and the single resulting debit (cost 500 at
multiplier 1.0) drives the balance to −200 < 0: `token_balance ≥ 0` is
not an invariant. -/
theorem c6_counterexample :
    chat_completions (some (fun _ => 100)) (fun _ => none) (some acct300)
        { model := "glm-5", messages := chat_msgs, stream := false }
        { lines := [], failure := none } .all
        (.success { usage_completion_tokens := some 400, choices := [] })
      = (.unary { usage_completion_tokens := some 400, choices := [] },
         [{ model := "glm-5", prompt_tokens := 100, completion_tokens := 400 }])
    ∧ (run_debit "u1"
        { model := "glm-5", prompt_tokens := 100, completion_tokens := 400 } 0
        { account := acct300, usage_records := [] }).account.token_balance
      = -200 := by
  decide

/-- C6, amended: grants only ever increase the balance, but a completion
debit can drive it negative because the debit uses the post-hoc measured
cost while the check used the pre-flight estimate; what does hold is
that after a passed check the balance is at least `max(1, estimate)`, so
the post-debit balance stays non-negative whenever the final cost does
not exceed `max(1, estimate)`. -/
theorem c6_amended_theorem (a : Account) (est p c : Nat)
    (uid model task : String) (now : Int) (rs : List UsageRecord)
    (hchk : check_balance (some a) est = true)
    (hcost : (deduct_cost model (p + c) : Int) ≤ max 1 (est : Int)) :
    0 ≤ (deduct_tokens uid model p c task now
          { account := a, usage_records := rs }).account.token_balance := by
  have hbal : max 1 (est : Int) ≤ a.token_balance := by
    by_contra hlt
    push_neg at hlt
    rw [check_balance, if_pos hlt] at hchk
    exact Bool.false_ne_true hchk
  show 0 ≤ a.token_balance - (deduct_cost model (p + c) : Int)
  omega

/-- C6, witness for the amended theorem: a fresh account (balance
50000), estimate 100, prompt 100, completion 0, multiplier 1.0. -/
theorem c6_amended_witness :
    check_balance (some (register_account 0)) 100 = true
    ∧ (deduct_cost "glm-5" (100 + 0) : Int) ≤ max 1 ((100 : Nat) : Int)
    ∧ 0 ≤ (deduct_tokens "u1" "glm-5" 100 0 "对话" 0
          { account := register_account 0
            usage_records := [] }).account.token_balance :=
  ⟨by decide, by decide,
    c6_amended_theorem (register_account 0) 100 100 0 "u1" "glm-5" "对话" 0 []
      (by decide) (by decide)⟩

-- ─── Claim C10 ───

/-- C10: when fulfillment finds a pending order whose referenced account
record does not exist, the whole database is left unchanged — no grant
is applied and the order is not marked paid, so a later re-delivery of
the same settlement event is still processed against the pending
order. -/
theorem c10_theorem (plans : List (String × Plan)) (otn tid : String)
    (now : Int) (db : PayDb) (o : Order)
    (hfind : order_find db.orders otn = some o)
    (hpending : (o.status == "paid") = false)
    (huser : user_find db.users o.user_id = none) :
    fulfill_order plans otn tid now db = db := by
  simp [fulfill_order, hfind, hpending, huser]

/-- C10, witness: the pending pack order of `db10`, whose users
collection is empty. -/
theorem c10_witness :
    order_find db10.orders "OT8" = some ord8
    ∧ (ord8.status == "paid") = false
    ∧ user_find db10.users ord8.user_id = none
    ∧ fulfill_order PLANS "OT8" "TX10" 5 db10 = db10 :=
  ⟨by decide, by decide, by decide,
    c10_theorem PLANS "OT8" "TX10" 5 db10 ord8 (by decide) (by decide)
      (by decide)⟩

-- ─── Claim C7 ───

/-- C7: sequential idempotency of settlement fulfillment — with a
pending order and an existing account, the first `fulfill` leaves the
order `"paid"` carrying the external transaction id and paid timestamp;
a second `fulfill` with the same order reference (any transaction id and
time) is a no-op on the whole database; and `fulfill` against a
reference matching no order is a no-op. -/
theorem c7_theorem (plans : List (String × Plan)) (otn tid tid2 : String)
    (now now2 : Int) (db db2 : PayDb) (o : Order) (u : Account)
    (hfind : order_find db.orders otn = some o)
    (hpending : (o.status == "paid") = false)
    (huser : user_find db.users o.user_id = some u)
    (hnone : order_find db2.orders otn = none) :
    order_find (fulfill_order plans otn tid now db).orders otn
      = some { o with status := "paid", transaction_id := some tid
                      paid_at := some now }
    ∧ fulfill_order plans otn tid2 now2 (fulfill_order plans otn tid now db)
        = fulfill_order plans otn tid now db
    ∧ fulfill_order plans otn tid now db2 = db2 := by
  have hmark := fulfill_order_marks plans otn tid now db o u hfind hpending huser
  refine ⟨hmark, ?_, by simp [fulfill_order, hnone]⟩
  set db1 := fulfill_order plans otn tid now db with hdb1
  simp [fulfill_order, hmark]

/-- C7, witness: the pending pack order of `db8` fulfilled twice. -/
theorem c7_witness :
    order_find db8.orders "OT8" = some ord8
    ∧ (ord8.status == "paid") = false
    ∧ user_find db8.users ord8.user_id = some (register_account 0)
    ∧ order_find (PayDb.orders ⟨[], []⟩) "OT8" = none
    ∧ order_find (fulfill_order PLANS "OT8" "TX7" 3 db8).orders "OT8"
        = some { ord8 with status := "paid", transaction_id := some "TX7"
                           paid_at := some 3 }
    ∧ fulfill_order PLANS "OT8" "TX7b" 9 (fulfill_order PLANS "OT8" "TX7" 3 db8)
        = fulfill_order PLANS "OT8" "TX7" 3 db8 :=
  have h := c7_theorem PLANS "OT8" "TX7" "TX7b" 3 9 db8 ⟨[], []⟩ ord8
    (register_account 0) (by decide) (by decide) (by decide) (by decide)
  ⟨by decide, by decide, by decide, by decide, h.1, h.2.1⟩

-- ─── Claim C8 ───

/-- C8, counterexample: the same database (`db8`, whose pending order
stores the creation-time snapshot `token_grant = 1000000`) fulfilled
against the original `PLANS` table grants 1000000 tokens, but fulfilled
against the later table `PLANS2` (pack changed to 2000000) grants
2000000 — the grant is re-read from the current plan table, so a plan
change between order creation and fulfillment does change what a
pending order grants. -/
theorem c8_counterexample :
    ord8.token_grant = 1000000
    ∧ user_find (fulfill_order PLANS "OT8" "TX8" 0 db8).users "u1"
        = some { register_account 0 with token_balance := 1050000 }
    ∧ user_find (fulfill_order PLANS2 "OT8" "TX8" 0 db8).users "u1"
        = some { register_account 0 with token_balance := 2050000 }
    ∧ (user_find (fulfill_order PLANS "OT8" "TX8" 0 db8).users "u1"
        ≠ user_find (fulfill_order PLANS2 "OT8" "TX8" 0 db8).users "u1") := by
  decide

/-- C8, amended: fulfillment computes the token grant from the current
plan table keyed by the order's `plan_id` (defaulting to 0 when the
plan id is absent from the table), not from the snapshot stored in the
order; the order is marked paid regardless. -/
theorem c8_amended_theorem (plans : List (String × Plan)) (otn tid : String)
    (now : Int) (db : PayDb) (o : Order) (u : Account)
    (hfind : order_find db.orders otn = some o)
    (hpending : (o.status == "paid") = false)
    (huser : user_find db.users o.user_id = some u) :
    (user_find (fulfill_order plans otn tid now db).users o.user_id).map
        Account.token_balance
      = some (u.token_balance +
          (if 0 < plan_token_grant plans o.plan_id then
            plan_token_grant plans o.plan_id else 0))
    ∧ order_find (fulfill_order plans otn tid now db).orders otn
      = some { o with status := "paid", transaction_id := some tid
                      paid_at := some now } := by
  refine ⟨?_, fulfill_order_marks plans otn tid now db o u hfind hpending huser⟩
  simp only [fulfill_order, hfind, hpending, Bool.false_eq_true, if_false,
    huser]
  rw [user_find_set o.user_id _ db.users u huser]
  split_ifs <;> simp

/-- C8, witness for the amended theorem: `db8` against the original
`PLANS` table. -/
theorem c8_amended_witness :
    order_find db8.orders "OT8" = some ord8
    ∧ (ord8.status == "paid") = false
    ∧ user_find db8.users ord8.user_id = some (register_account 0)
    ∧ (user_find (fulfill_order PLANS "OT8" "TX8b" 0 db8).users
        ord8.user_id).map Account.token_balance
      = some ((register_account 0).token_balance +
          (if 0 < plan_token_grant PLANS ord8.plan_id then
            plan_token_grant PLANS ord8.plan_id else 0)) :=
  ⟨by decide, by decide, by decide,
    (c8_amended_theorem PLANS "OT8" "TX8b" 0 db8 ord8 (register_account 0)
      (by decide) (by decide) (by decide)).1⟩

-- ─── Claim C9 ───

/-- C9: a grant with a positive day count sets the membership level to
the paid tier and extends the expiry — stacking on the current expiry
when it is still in the future, else starting from the fulfillment
time; with a zero token grant the balance is untouched. -/
theorem c9_theorem (plans : List (String × Plan)) (otn tid : String)
    (now : Int) (db : PayDb) (o : Order) (u : Account) (p : Plan)
    (hfind : order_find db.orders otn = some o)
    (hpending : (o.status == "paid") = false)
    (huser : user_find db.users o.user_id = some u)
    (hplan : (plans.find? (fun q => q.1 == o.plan_id)).map Prod.snd = some p)
    (hdays : 0 < p.days_grant)
    (htok : p.token_grant = 0) :
    user_find (fulfill_order plans otn tid now db).users o.user_id
      = some { u with
          membership_level := "pro"
          updated_at := now
          membership_expire_at := some (match u.membership_expire_at with
            | some t => if now < t then t + timedelta_days p.days_grant
                        else now + timedelta_days p.days_grant
            | none => now + timedelta_days p.days_grant) } := by
  have hg : plan_token_grant plans o.plan_id = 0 := by
    simp [plan_token_grant, hplan, htok]
  have hd : plan_days_grant plans o.plan_id = p.days_grant := by
    simp [plan_days_grant, hplan]
  simp only [fulfill_order, hfind, hpending, Bool.false_eq_true, if_false,
    huser, hg, hd, lt_self_iff_false, if_pos hdays]
  rw [user_find_set o.user_id _ db.users u huser]

/-- C9, witness: fulfilling the 30-day monthly order of `db9` at time 0
on an account whose expiry is 10 days (864000 s) in the future yields
expiry 864000 + 30·86400 = 3456000 = original expiry + 30 days, level
`"pro"`, balance unchanged. -/
theorem c9_witness :
    order_find db9.orders "OT9" = some ord9
    ∧ (ord9.status == "paid") = false
    ∧ user_find db9.users ord9.user_id
        = some { register_account 0 with membership_expire_at := some 864000 }
    ∧ (PLANS.find? (fun q => q.1 == ord9.plan_id)).map Prod.snd
        = some { title := "专业版 - 月度订阅", amount_cents := 2900
                 token_grant := 0, days_grant := 30 }
    ∧ user_find (fulfill_order PLANS "OT9" "TX9" 0 db9).users ord9.user_id
        = some { token_balance := 50000, token_total_used := 0
                 membership_level := "pro"
                 membership_expire_at := some 3456000
                 created_at := 0, updated_at := 0 } :=
  ⟨by decide, by decide, by decide, by decide,
    c9_theorem PLANS "OT9" "TX9" 0 db9 ord9
      { register_account 0 with membership_expire_at := some 864000 }
      { title := "专业版 - 月度订阅", amount_cents := 2900
        token_grant := 0, days_grant := 30 }
      (by decide) (by decide) (by decide) (by decide) (by decide) (by decide)⟩

-- ─── Claim C2 ───

/-- C2, counterexample: the upstream line `"data: null"` is valid JSON
but not an SSE data chunk; `json.loads` yields `None`, and
`payload.get("choices", [])` then raises `AttributeError` (the model's
fixed tag for it).  The exception is caught by the outer handler, which
emits a synthetic `upstream_error` event and ends the stream: the line
was skipped for metering but DID abort the stream — the next upstream
line is never forwarded — refuting "never aborting the stream". -/
theorem c2_counterexample :
    (event_generator jl1 tok_len "glm-5" 2
        { lines := ["data: null", "data: hi"], failure := none }).1
      = ["data: null\n", errorEvent "AttributeError"]
    ∧ "data: hi\n" ∉ (event_generator jl1 tok_len "glm-5" 2
        { lines := ["data: null", "data: hi"], failure := none }).1 := by
  decide

/-- C2, amended: every upstream line is forwarded verbatim (plus the
newline the code re-appends) in arrival order, and a line that fails
JSON parsing is skipped for metering without aborting the stream; but a
data line whose payload parses to a non-dict, or to a dict whose
`choices` value is not iterable, raises and terminates the stream with
a synthetic error event (after the line itself was forwarded).  When no
line raises, the whole upstream is forwarded unchanged and the debit's
completion count is the token estimate of the concatenation, in arrival
order, of every string-valued `delta.content` field of the parseable
chunks. -/
theorem c2_amended_theorem (jsonLoads : String → Option Json)
    (tok : String → Nat) (model : String) (pt : Nat) (lines : List String)
    (h : ∀ l ∈ lines, meter_ok jsonLoads l = true) :
    event_generator jsonLoads tok model pt { lines := lines, failure := none }
      = (lines.map (fun l => l ++ "\n"),
         { model := model, prompt_tokens := pt
           completion_tokens :=
             tok (concat_pieces (lines.map (meter_piece jsonLoads))) }) := by
  have hr := relayLines_ok jsonLoads lines h ""
  simp [event_generator, hr, String.empty_append]

/-- C2, witness: the scripted upstream `["Hello", " world"]` is
forwarded as exactly those two chunks in order and the debit's
completion estimate is computed from `"Hello world"` (11 characters
under the stand-in estimator). -/
theorem c2_amended_witness :
    meter_ok jl1 line1 = true ∧ meter_ok jl1 line2 = true
    ∧ event_generator jl1 tok_len "glm-5" 2
        { lines := [line1, line2], failure := none }
      = ([line1 ++ "\n", line2 ++ "\n"],
         { model := "glm-5", prompt_tokens := 2, completion_tokens := 11 }) :=
  ⟨by decide, by decide,
    c2_amended_theorem jl1 tok_len "glm-5" 2 [line1, line2] (by decide)⟩

-- ─── Claim C3 ───

/-- C3: when the upstream stream fails after its lines were produced,
the client receives those lines in order, then exactly one synthetic
`data: {"error": {"message": ..., "type": "upstream_error"}}` event,
then the stream ends; the debit still fires, and running it writes
exactly one UsageRecord whose completion-token count is the estimate of
the text accumulated before the failure. -/
theorem c3_theorem (jsonLoads : String → Option Json) (tok : String → Nat)
    (model : String) (pt : Nat) (lines : List String) (msg uid : String)
    (now : Int) (st : Ledger)
    (h : ∀ l ∈ lines, meter_ok jsonLoads l = true) :
    event_generator jsonLoads tok model pt { lines := lines, failure := some msg }
      = (lines.map (fun l => l ++ "\n") ++ [errorEvent msg],
         { model := model, prompt_tokens := pt
           completion_tokens :=
             tok (concat_pieces (lines.map (meter_piece jsonLoads))) })
    ∧ (run_debit uid
        { model := model, prompt_tokens := pt
          completion_tokens :=
            tok (concat_pieces (lines.map (meter_piece jsonLoads))) }
        now st).usage_records
      = st.usage_records ++
        [{ user_id := uid, model := model, task_type := "对话"
           prompt_tokens := pt
           completion_tokens :=
             tok (concat_pieces (lines.map (meter_piece jsonLoads)))
           total_tokens :=
             pt + tok (concat_pieces (lines.map (meter_piece jsonLoads)))
           cost_tokens := deduct_cost model
             (pt + tok (concat_pieces (lines.map (meter_piece jsonLoads))))
           created_at := now }] := by
  constructor
  · have hr := relayLines_ok jsonLoads lines h ""
    simp [event_generator, hr, String.empty_append]
  · rfl

/-- C3, witness: one `"Hello"` chunk is delivered, the upstream then
fails; the client sees the chunk and one synthetic error event, and one
UsageRecord is written with completion estimate 5 (= tokens of
`"Hello"`). -/
theorem c3_witness :
    meter_ok jl1 line1 = true
    ∧ event_generator jl1 tok_len "glm-5" 2
        { lines := [line1], failure := some "connection reset" }
      = ([line1 ++ "\n", errorEvent "connection reset"],
         { model := "glm-5", prompt_tokens := 2, completion_tokens := 5 })
    ∧ (run_debit "u1"
        { model := "glm-5", prompt_tokens := 2, completion_tokens := 5 } 0
        { account := register_account 0, usage_records := [] }).usage_records
      = [{ user_id := "u1", model := "glm-5", task_type := "对话"
           prompt_tokens := 2, completion_tokens := 5, total_tokens := 7
           cost_tokens := 7, created_at := 0 }] :=
  have h := c3_theorem jl1 tok_len "glm-5" 2 [line1] "connection reset" "u1" 0
    { account := register_account 0, usage_records := [] } (by decide)
  ⟨by decide, h.1, h.2⟩

-- ─── Claim C5 ───

/-- C5: with an existing account, the request fails with
InsufficientBalance exactly when the balance is strictly below
`max(1, estimated prompt tokens)` — so at balance = estimate ≥ 1 the
request proceeds — and on rejection the result is the bare
InsufficientBalance outcome with no debit (and no dependence on the
upstream behaviours, which are never invoked). -/
theorem c5_theorem (enc : Option (String → Nat))
    (jsonLoads : String → Option Json) (a : Account) (req : ChatReq)
    (sUp : Upstream) (cl : ClientRead) (uUp : UpstreamUnary) (text : String)
    (hx : extract_text_from_messages req.messages = .ok text) :
    ((chat_completions enc jsonLoads (some a) req sUp cl uUp).1
        = .insufficientBalance
      ↔ a.token_balance < max 1 ((count_tokens_approx enc text : Nat) : Int))
    ∧ (a.token_balance < max 1 ((count_tokens_approx enc text : Nat) : Int) →
        chat_completions enc jsonLoads (some a) req sUp cl uUp
          = (.insufficientBalance, [])) := by
  by_cases hb : a.token_balance
      < max 1 ((count_tokens_approx enc text : Nat) : Int)
  · have hcb : check_balance (some a) (count_tokens_approx enc text) = false := by
      rw [check_balance, if_pos hb]
    exact ⟨by simp [chat_completions, hx, hcb, hb],
           fun _ => by simp [chat_completions, hx, hcb]⟩
  · have hcb : check_balance (some a) (count_tokens_approx enc text) = true := by
      rw [check_balance, if_neg hb]
    refine ⟨?_, fun hlt => absurd hlt hb⟩
    simp only [chat_completions, hx, hcb, if_true]
    cases hs : req.stream <;> cases uUp <;> simp [hb]

/-- C5, witness: a fresh account (balance 50000) against estimate 2 is
accepted — the outcome is not InsufficientBalance. -/
theorem c5_witness :
    extract_text_from_messages chat_msgs = .ok "hi"
    ∧ (((chat_completions (some tok_len) jl1 (some (register_account 0))
          { model := "glm-5", messages := chat_msgs, stream := false }
          { lines := [], failure := none } .all (.failure "x")).1
        = .insufficientBalance)
      ↔ (register_account 0).token_balance
          < max 1 ((count_tokens_approx (some tok_len) "hi" : Nat) : Int))
    ∧ ((register_account 0).token_balance
          < max 1 ((count_tokens_approx (some tok_len) "hi" : Nat) : Int) →
        chat_completions (some tok_len) jl1 (some (register_account 0))
          { model := "glm-5", messages := chat_msgs, stream := false }
          { lines := [], failure := none } .all (.failure "x")
        = (.insufficientBalance, [])) :=
  have h := c5_theorem (some tok_len) jl1 (register_account 0)
    { model := "glm-5", messages := chat_msgs, stream := false }
    { lines := [], failure := none } .all (.failure "x") "hi" rfl
  ⟨rfl, h.1, h.2⟩

-- ─── Claim C1 ───

/-- C1, counterexample: a unary request that passes the balance check
and reaches a failing upstream call produces NO debit at all — the
handler raises HTTP 502 before `_deduct_tokens` is ever spawned — so
"finalize runs and produces exactly one debit ... on upstream error ...
for both the streaming and the unary path" is false on the unary
path. -/
theorem c1_counterexample :
    chat_completions (some tok_len) jl1 (some (register_account 0))
        { model := "glm-5", messages := chat_msgs, stream := false }
        { lines := [], failure := none } .all (.failure "connection reset")
      = (.upstreamFailed "connection reset", []) := by
  decide

/-- C1, amended: every streaming request that reaches the upstream call
fires exactly one debit — on normal completion, upstream error and
client disconnect alike — and an upstream failure before any output
debits zero completion tokens (the prompt-side estimate still charged);
the unary path debits exactly once on upstream success but performs no
debit (and writes no UsageRecord) when the unary upstream call
fails. -/
theorem c1_amended_theorem (enc : Option (String → Nat))
    (jsonLoads : String → Option Json) (user : Option Account)
    (req : ChatReq) (sUp : Upstream) (cl : ClientRead) (uUp : UpstreamUnary)
    (text : String)
    (hx : extract_text_from_messages req.messages = .ok text)
    (hchk : check_balance user (count_tokens_approx enc text) = true) :
    (req.stream = true →
      (chat_completions enc jsonLoads user req sUp cl uUp).2.length = 1)
    ∧ (∀ resp, req.stream = false → uUp = .success resp →
        (chat_completions enc jsonLoads user req sUp cl uUp).2.length = 1)
    ∧ (∀ msg, req.stream = false → uUp = .failure msg →
        (chat_completions enc jsonLoads user req sUp cl uUp).2 = [])
    ∧ (∀ f msg, req.stream = true → cl = .all → enc = some f → f "" = 0 →
        sUp = { lines := [], failure := some msg } →
        chat_completions enc jsonLoads user req sUp cl uUp
          = (.streamed [errorEvent msg],
             [{ model := req.model
                prompt_tokens := count_tokens_approx enc text
                completion_tokens := 0 }])) := by
  refine ⟨?_, ?_, ?_, ?_⟩
  · intro hs
    simp [chat_completions, hx, hchk, hs]
  · intro resp hs hu
    simp [chat_completions, hx, hchk, hs, hu]
  · intro msg hs hu
    simp [chat_completions, hx, hchk, hs, hu]
  · intro f msg hs hcl henc hf hsup
    subst hcl henc hsup
    simp only [count_tokens_approx] at hchk
    simp [chat_completions, hx, hchk, hs, run_stream, event_generator,
      relayLines, count_tokens_approx, hf]

/-- C1, witness for the amended theorem: a streaming request whose
upstream fails before any output — the stream carries only the
synthetic error event and exactly one debit fires, with zero completion
tokens. -/
theorem c1_amended_witness :
    extract_text_from_messages chat_msgs = .ok "hi"
    ∧ check_balance (some (register_account 0))
        (count_tokens_approx (some tok_len) "hi") = true
    ∧ (chat_completions (some tok_len) jl1 (some (register_account 0))
        { model := "glm-5", messages := chat_msgs, stream := true }
        { lines := [], failure := some "boom" } .all (.failure "x")).2.length = 1
    ∧ chat_completions (some tok_len) jl1 (some (register_account 0))
        { model := "glm-5", messages := chat_msgs, stream := true }
        { lines := [], failure := some "boom" } .all (.failure "x")
      = (.streamed [errorEvent "boom"],
         [{ model := "glm-5", prompt_tokens := 2, completion_tokens := 0 }]) :=
  have h := c1_amended_theorem (some tok_len) jl1 (some (register_account 0))
    { model := "glm-5", messages := chat_msgs, stream := true }
    { lines := [], failure := some "boom" } .all (.failure "x") "hi" rfl
    (by decide)
  ⟨rfl, by decide, h.1 rfl, h.2.2.2 tok_len "boom" rfl rfl rfl rfl rfl⟩

end PeTool
